import Mathlib

/-!
Shallow embedding of `src/app.py` (Vincent's Med AI, a Streamlit front end
around one Gemini text-generation call), together with the tenacity retry
and wait combinators it configures on line 33.

External effects are modelled by explicit parameters:
* the per-attempt outcome of `model.generate_content` is an oracle
  `Nat → Except PyExc String` (attempt number, 1-based, to either the
  response text or the raised exception, carried as its class name and
  message);
* after exhausting its attempts the decorated `safe_generate` raises
  tenacity's `RetryError` (the decorator on line 33 sets no
  `reraise=True`), whose `str()` is
  `"RetryError[<Future at 0x… state=finished raised ClassName>]"` — it
  shows the wrapped exception's class name, never its message; the
  future's memory address is an opaque parameter `addr`;
* the decoded upload is `Option (Option String)` (no upload / upload whose
  bytes failed to decode / decoded text);
* the random draw of `random.uniform(0, high)` is a rational `r ∈ [0, 1]`
  scaling `high`.
-/

namespace MedAI

/-! ### Character-level helpers for Python string primitives -/

/-- Python `w in s` on character lists: `listStartsWith w s` is true when
`w` is an initial segment of `s`. -/
def listStartsWith : List Char → List Char → Bool
  | [], _ => true
  | _ :: _, [] => false
  | c :: w, d :: s => c == d && listStartsWith w s

/-- Python `w in s` on character lists: true when `w` occurs contiguously
inside `s`. -/
def listContainsSub (w : List Char) : List Char → Bool
  | [] => listStartsWith w []
  | c :: t => listStartsWith w (c :: t) || listContainsSub w t

/-- Python `str.lower()` (ASCII case folding, via `Char.toLower`). -/
def strToLower (s : String) : String := ⟨s.data.map Char.toLower⟩

/-- Python `w in s` for strings. -/
def strContains (s w : String) : Bool := listContainsSub w.data s.data

/-- Python `str.strip()` with no argument: remove leading and trailing
whitespace. -/
def pyStrip (s : String) : String :=
  ⟨((s.data.dropWhile Char.isWhitespace).reverse.dropWhile
      Char.isWhitespace).reverse⟩

/-! ### Startup (src/app.py lines 17-30) -/

/-- `st.error` text on line 21. -/
def missing_key_msg : String :=
  "❌ Please set a GOOGLE_API_KEY in a .env file or Streamlit secret."

/-- Fixed head of the `st.error` f-string on line 29. -/
def init_failure_head : String := "😓 Could not initialise Gemini: "

/-- Terminal startup state: halted via `st.stop()` with an error shown, or
serving the page. -/
inductive Startup where
  | halted (msg : String)
  | serving
deriving DecidableEq

/-- Lines 19-30: the key check and the `genai.configure`/`GenerativeModel`
try block. `google_key` is `os.getenv`'s result (`none` = unset); Python's
`if not google_key` is also taken for the empty string. `configure` is the
outcome of the try block's body; the returned Bool records whether that
body was ever entered. -/
def startup (google_key : Option String) (configure : Except String Unit) :
    Startup × Bool :=
  match google_key with
  | none => (.halted missing_key_msg, false)
  | some k =>
    if k = "" then (.halted missing_key_msg, false)
    else
      match configure with
      | .error e => (.halted (init_failure_head ++ e), true)
      | .ok _ => (.serving, true)

/-! ### The tenacity retry loop (src/app.py lines 33-40) -/

/-- A raised Python exception, as the program can observe it: its class
name (shown by a `Future`'s repr) and its message (shown by `str` on the
exception itself). -/
structure PyExc where
  cls : String
  msg : String
deriving DecidableEq

/-- tenacity's `RetryError`, raised by the decorated function once the
stop condition holds (line 33 sets no `reraise=True`); it encapsulates
the last attempt's future, hence that attempt's exception. -/
structure RetryError where
  last_attempt : PyExc
deriving DecidableEq

/-- `str` of a `RetryError`:
`f"{self.__class__.__name__}[{self.last_attempt}]"` where the wrapped
future's repr is `"<Future at 0x… state=finished raised ClassName>"` —
it carries the exception's class name only, never its message. `addr` is
the future's memory address in lowercase hex. -/
def retry_error_str (addr : String) (r : RetryError) : String :=
  "RetryError[<Future at 0x" ++ addr ++ " state=finished raised " ++
    r.last_attempt.cls ++ ">]"

/-- tenacity's attempt loop specialised to the decorator on line 33:
`call attempt` is attempt number `attempt`'s outcome; on an exception the
loop retries while `fuel` remains (`stop_after_attempt` bounds the total
number of attempts), and once fuel runs out the last attempt's exception
is what the loop gives up holding. Returns the final outcome and how many
attempts were issued. -/
def retry_loop (call : Nat → Except PyExc String) :
    Nat → Nat → Except PyExc String × Nat
  | 0, attempt =>
    match call attempt with
    | .ok s => (.ok s, 1)
    | .error e => (.error e, 1)
  | f + 1, attempt =>
    match call attempt with
    | .ok s => (.ok s, 1)
    | .error _ =>
      let rest := retry_loop call f (attempt + 1)
      (rest.1, rest.2 + 1)

/-- `stop_after_attempt(4)` on line 33: at most 4 total attempts. -/
def stop_attempts : Nat := 4

/-- Lines 33-40: the decorated `safe_generate`. Each attempt runs the body
`model.generate_content(...)` then `return response.text.strip()`, so a
successful attempt yields the trimmed response text; exceptions are
retried by tenacity up to `stop_attempts` total attempts, after which the
decorator raises a `RetryError` wrapping the last attempt (default
`reraise=False`). Also returns the number of attempts issued. -/
def safe_generate (generate_content : Nat → Except PyExc String) :
    Except RetryError String × Nat :=
  ((retry_loop (fun i => (generate_content i).map pyStrip)
      (stop_attempts - 1) 1).1.mapError RetryError.mk,
   (retry_loop (fun i => (generate_content i).map pyStrip)
      (stop_attempts - 1) 1).2)

/-! ### The tenacity wait strategy (line 33, tenacity `wait.py`) -/

/-- tenacity `wait_exponential.__call__` with `multiplier=1`, `exp_base=2`:
`max(max(0, min), min(2 ** (attempt_number - 1), max))`. This is the upper
end of the random window, not the wait itself. -/
def wait_exponential_high (mn mx : ℚ) (attempt_number : Nat) : ℚ :=
  max (max 0 mn) (min ((2 : ℚ) ^ (attempt_number - 1)) mx)

/-- tenacity `wait_random_exponential.__call__`:
`random.uniform(0, high)`, modelled as `r * high` for a draw `r ∈ [0, 1]`. -/
def wait_random_exponential (mn mx : ℚ) (attempt_number : Nat) (r : ℚ) : ℚ :=
  r * wait_exponential_high mn mx attempt_number

/-- The wait configured on line 33: `wait_random_exponential(min=12, max=60)`,
as a function of the attempt number just failed and the random draw. -/
def retry_wait (attempt_number : Nat) (r : ℚ) : ℚ :=
  wait_random_exponential 12 60 attempt_number r

/-! ### Input collection (src/app.py lines 56-81) -/

/-- Lines 62-69: the upload handler. `uploaded = none` is no upload;
`some none` is an upload whose bytes raised while decoding as UTF-8;
`some (some s)` decoded to `s`. Returns `file_text` and whether the
decode-failure warning was shown. -/
def file_upload (uploaded : Option (Option String)) : String × Bool :=
  match uploaded with
  | none => ("", false)
  | some none => ("", true)
  | some (some s) => (s, false)

/-- Line 81: `final_text = file_text if file_text.strip() else lab_text_input`
(a Python string is truthy exactly when non-empty). -/
def final_text (file_text lab_text_input : String) : String :=
  if pyStrip file_text = "" then lab_text_input else file_text

/-! ### Prompt construction (src/app.py lines 90-97) -/

/-- Lines 90-96: the fixed system instruction (Python adjacent string
literals, concatenated). -/
def system_prompt : String :=
  "You are a compassionate medical doctor AI assistant. " ++
  "Explain lab results in simple terms. " ++
  "You may suggest general medicine classes or lifestyle tips, " ++
  "but do NOT give drug names or exact doses. " ++
  "Always remind the reader to confirm with a licensed doctor."

/-- Line 97: the f-string
`f"{system_prompt}\n\nHere is the lab result:\n{final_text}\n\nExplain and recommend."`. -/
def full_prompt (final_text : String) : String :=
  system_prompt ++ "\n\nHere is the lab result:\n" ++ final_text ++
  "\n\nExplain and recommend."

/-! ### The button click handler (src/app.py lines 84-108) -/

/-- `st.warning` text on line 86. -/
def empty_input_warning : String :=
  "Please upload a file or paste a lab result before clicking 😊"

/-- `st.error` text on line 106. -/
def quota_message : String :=
  "⚠️ Free Gemini quota reached or too many requests. Please wait a bit and try again."

/-- Fixed head of the `st.error` f-string on line 108. -/
def generic_failure_head : String := "😓 Oops, something went wrong: "

/-- The keyword list on line 105. -/
def quota_keywords : List String := ["quota", "rate", "limit"]

/-- Line 105: `any(word in str(e).lower() for word in ["quota", "rate", "limit"])`. -/
def is_quota_error (e : String) : Bool :=
  quota_keywords.any (fun w => strContains (strToLower e) w)

/-- What the handler leaves on screen. -/
inductive ClickResult where
  | warning (msg : String)
  | success (answer : String)
  | failure (msg : String)
deriving DecidableEq

/-- Lines 84-108: the click handler. `generate_content prompt attempt` is
the model call's outcome for that prompt on that attempt; `addr` is the
memory address the failed future's repr would show. The exception `e`
caught on line 104 after exhausted retries is the `RetryError`, so
`str(e)` on lines 105 and 108 is its wrapper text. Returns the rendered
result and the number of outbound generation calls issued. -/
def handle_click (file_text lab_text_input : String)
    (generate_content : String → Nat → Except PyExc String)
    (addr : String) : ClickResult × Nat :=
  if pyStrip (final_text file_text lab_text_input) = "" then
    (.warning empty_input_warning, 0)
  else
    match safe_generate
        (generate_content (full_prompt (final_text file_text lab_text_input))) with
    | (.ok answer, n) => (.success answer, n)
    | (.error re, n) =>
      if is_quota_error (retry_error_str addr re) then
        (.failure quota_message, n)
      else (.failure (generic_failure_head ++ retry_error_str addr re), n)

/-! ### Helper lemmas about the retry loop -/

set_option maxRecDepth 16384

/-- One-step unfolding: a successful attempt stops the loop at once. -/
theorem retry_loop_ok_eq (call : Nat → Except PyExc String)
    (fuel attempt : Nat) (s : String) (h : call attempt = .ok s) :
    retry_loop call fuel attempt = (.ok s, 1) := by
  cases fuel <;> simp [retry_loop, h]

/-- One-step unfolding: a failed attempt with no fuel left surfaces the
error. -/
theorem retry_loop_error_zero (call : Nat → Except PyExc String)
    (attempt : Nat) (e : PyExc) (h : call attempt = .error e) :
    retry_loop call 0 attempt = (.error e, 1) := by
  simp [retry_loop, h]

/-- One-step unfolding: a failed attempt with fuel left retries at the next
attempt number. -/
theorem retry_loop_error_succ (call : Nat → Except PyExc String)
    (f attempt : Nat) (e : PyExc) (h : call attempt = .error e) :
    retry_loop call (f + 1) attempt =
      ((retry_loop call f (attempt + 1)).1,
        (retry_loop call f (attempt + 1)).2 + 1) := by
  simp [retry_loop, h]

/-- An `Except.mapError` image that is a success came from that same
success. -/
theorem mapError_ok {ε ε' α : Type} (f : ε → ε') (x : Except ε α) (a : α)
    (h : x.mapError f = .ok a) : x = .ok a := by
  cases x with
  | ok v => simpa [Except.mapError] using h
  | error e => simp [Except.mapError] at h

/-- The retry loop issues at most `fuel + 1` attempts. -/
theorem retry_loop_count_le (call : Nat → Except PyExc String) :
    ∀ fuel attempt, (retry_loop call fuel attempt).2 ≤ fuel + 1 := by
  intro fuel
  induction fuel with
  | zero =>
    intro attempt
    cases h : call attempt with
    | ok s => rw [retry_loop_ok_eq call 0 attempt s h]
    | error e => rw [retry_loop_error_zero call attempt e h]
  | succ f ih =>
    intro attempt
    cases h : call attempt with
    | ok s =>
      rw [retry_loop_ok_eq call (f + 1) attempt s h]
      show 1 ≤ f + 1 + 1
      omega
    | error e =>
      rw [retry_loop_error_succ call f attempt e h]
      have hrec := ih (attempt + 1)
      show (retry_loop call f (attempt + 1)).2 + 1 ≤ f + 1 + 1
      omega

/-- A successful retry-loop outcome comes from a successful attempt in
range. -/
theorem retry_loop_ok_source (call : Nat → Except PyExc String) :
    ∀ fuel attempt r, (retry_loop call fuel attempt).1 = .ok r →
      ∃ i, attempt ≤ i ∧ i ≤ attempt + fuel ∧ call i = .ok r := by
  intro fuel
  induction fuel with
  | zero =>
    intro attempt r h
    cases hc : call attempt with
    | ok s =>
      rw [retry_loop_ok_eq call 0 attempt s hc] at h
      exact ⟨attempt, Nat.le_refl _, by omega, by rw [hc]; exact h⟩
    | error e =>
      rw [retry_loop_error_zero call attempt e hc] at h
      exact absurd h (by simp)
  | succ f ih =>
    intro attempt r h
    cases hc : call attempt with
    | ok s =>
      rw [retry_loop_ok_eq call (f + 1) attempt s hc] at h
      exact ⟨attempt, Nat.le_refl _, by omega, by rw [hc]; exact h⟩
    | error e =>
      rw [retry_loop_error_succ call f attempt e hc] at h
      obtain ⟨i, h1, h2, h3⟩ := ih (attempt + 1) r h
      exact ⟨i, by omega, by omega, h3⟩

/-! ### Claims -/

/-- Claim C1: for every prompt, `safe_generate` retries the underlying
generation call on any exception — the retry decision does not look at the
error — for up to 4 total attempts; if the call fails on attempts 1-3 and
succeeds on attempt 4, `safe_generate` returns the successful result (the
attempt's response text, stripped per the function body), and no run ever
issues more than 4 attempts. -/
theorem safe_generate_four_attempts :
    (∀ (gen : Nat → Except PyExc String) (e1 e2 e3 : PyExc) (s : String),
        gen 1 = .error e1 → gen 2 = .error e2 → gen 3 = .error e3 →
        gen 4 = .ok s → safe_generate gen = (.ok (pyStrip s), 4)) ∧
    (∀ gen : Nat → Except PyExc String, (safe_generate gen).2 ≤ 4) := by
  constructor
  · intro gen e1 e2 e3 s h1 h2 h3 h4
    show ((retry_loop (fun i => (gen i).map pyStrip) 3 1).1.mapError
        RetryError.mk,
      (retry_loop (fun i => (gen i).map pyStrip) 3 1).2) = (.ok (pyStrip s), 4)
    rw [retry_loop_error_succ _ 2 1 e1 (by simp [h1, Except.map]),
      retry_loop_error_succ _ 1 2 e2 (by simp [h2, Except.map]),
      retry_loop_error_succ _ 0 3 e3 (by simp [h3, Except.map]),
      retry_loop_ok_eq _ 0 4 (pyStrip s) (by simp [h4, Except.map])]
    rfl
  · intro gen
    exact retry_loop_count_le _ 3 1

/-- Witness for C1: with a call failing on attempts 1-3 and succeeding on
attempt 4, the result is the fourth attempt's text, stripped, after
exactly 4 attempts. -/
theorem safe_generate_four_attempts_witness :
    safe_generate
        (fun i => if i = 4 then .ok " fine "
          else .error ⟨"ServiceUnavailable", "503 transient"⟩) =
      (.ok (pyStrip " fine "), 4) :=
  safe_generate_four_attempts.1 _
    ⟨"ServiceUnavailable", "503 transient"⟩
    ⟨"ServiceUnavailable", "503 transient"⟩
    ⟨"ServiceUnavailable", "503 transient"⟩ " fine " rfl rfl rfl rfl

/-- Claim C2 counterexample: the outbound prompt is not the fixed system
instruction followed directly by the lab text — for the lab text
"Hemoglobin A1C: 8.2% (High)" the prompt differs from that concatenation
(the code inserts a fixed connective and appends a fixed closing
request). -/
theorem full_prompt_not_instruction_then_text :
    full_prompt "Hemoglobin A1C: 8.2% (High)" ≠
      system_prompt ++ "Hemoglobin A1C: 8.2% (High)" := by
  decide

/-- Claim C2 (amended): the outbound prompt is the fixed system
instruction, then the fixed connective "\n\nHere is the lab result:\n",
then exactly the caller-supplied lab text, then the fixed closing
"\n\nExplain and recommend."; instantiated at the lab text
"Hemoglobin A1C: 8.2% (High)" the prompt is that exact string. -/
theorem full_prompt_structure :
    (∀ s : String,
        full_prompt s =
          system_prompt ++ "\n\nHere is the lab result:\n" ++ s ++
            "\n\nExplain and recommend.") ∧
    full_prompt "Hemoglobin A1C: 8.2% (High)" =
      "You are a compassionate medical doctor AI assistant. Explain lab results in simple terms. You may suggest general medicine classes or lifestyle tips, but do NOT give drug names or exact doses. Always remind the reader to confirm with a licensed doctor.\n\nHere is the lab result:\nHemoglobin A1C: 8.2% (High)\n\nExplain and recommend." :=
  ⟨fun _ => rfl, by decide⟩

/-- Claim C3 counterexample: a whitespace-only upload is non-empty, yet the
resolved text is the typed text, not the upload content. -/
theorem final_text_whitespace_upload_counterexample :
    (" " : String) ≠ "" ∧ final_text " " "abc" = "abc" ∧
      ("abc" : String) ≠ " " := by
  decide

/-- Claim C3 (amended): the resolved submission text equals the upload's
decoded content whenever that content is non-empty after stripping
whitespace (regardless of typed text), and equals the typed text
otherwise; in particular, with no upload (empty upload text) the resolved
text is the typed text. -/
theorem final_text_resolution (f t : String) :
    (pyStrip f ≠ "" → final_text f t = f) ∧
    (pyStrip f = "" → final_text f t = t) := by
  constructor
  · intro h; simp [final_text, h]
  · intro h; simp [final_text, h]

/-- Witness for the amended C3: a non-whitespace upload wins; an upload
that strips to nothing loses to the typed text. -/
theorem final_text_resolution_witness :
    final_text "A" " x " = "A" ∧ final_text "  " "B" = "B" :=
  ⟨(final_text_resolution "A" " x ").1 (by decide),
   (final_text_resolution "  " "B").2 (by decide)⟩

/-- Claim C4 (code evidence): the decorator on line 33 sets no
`reraise=True`, so line 104 catches tenacity's `RetryError`, whose text
shows only the wrapped exception's class name. At the failing input —
every attempt raising `ResourceExhausted` with message
"429 Quota exceeded for quota metric" — the message contains the keyword
"quota", yet the handler shows the generic failure message carrying the
`RetryError` wrapper text, not the quota-specific message; the quota
branch fires only when the exception's class name itself carries a
keyword (e.g. `RateLimitError`). -/
theorem quota_keyword_error_shows_generic :
    listContainsSub "quota".data
        (strToLower "429 Quota exceeded for quota metric").data = true ∧
    (handle_click "x" ""
        (fun _ _ =>
          .error ⟨"ResourceExhausted", "429 Quota exceeded for quota metric"⟩)
        "7fd1c0a1b2c3").1 =
      .failure (generic_failure_head ++
        retry_error_str "7fd1c0a1b2c3"
          ⟨⟨"ResourceExhausted", "429 Quota exceeded for quota metric"⟩⟩) ∧
    (handle_click "x" ""
        (fun _ _ =>
          .error ⟨"ResourceExhausted", "429 Quota exceeded for quota metric"⟩)
        "7fd1c0a1b2c3").1 ≠ .failure quota_message ∧
    (handle_click "x" "" (fun _ _ => .error ⟨"RateLimitError", "boom"⟩)
        "7fd1c0a1b2c3").1 = .failure quota_message := by
  refine ⟨by decide, by decide, by decide, by decide⟩

/-- Claim C5: when the resolved text strips to empty, the handler shows the
prompt-for-input warning and issues no generation call; and whenever both
inputs strip to empty, the resolved text strips to empty. -/
theorem empty_submission_rejected :
    (∀ (f t : String) (gen : String → Nat → Except PyExc String)
        (addr : String),
        pyStrip (final_text f t) = "" →
        handle_click f t gen addr = (.warning empty_input_warning, 0)) ∧
    (∀ f t : String, pyStrip f = "" → pyStrip t = "" →
        pyStrip (final_text f t) = "") := by
  constructor
  · intro f t gen addr h
    simp [handle_click, h]
  · intro f t hf ht
    simp [final_text, hf, ht]

/-- Witness for C5: whitespace-only upload text and empty typed text
produce the warning and zero outbound calls. -/
theorem empty_submission_rejected_witness :
    handle_click " " "" (fun _ _ => .ok "x") "7f00" =
      (.warning empty_input_warning, 0) :=
  empty_submission_rejected.1 " " "" _ "7f00" (by decide)

/-- Claim C6: an upload whose bytes fail to decode makes the handler warn
and fall back to the empty upload value, so the resolved submission text
is the typed text. -/
theorem decode_failure_fallback (t : String) :
    file_upload (some none) = ("", true) ∧
    final_text (file_upload (some none)).1 t = t := by
  exact ⟨rfl, by simp [file_upload, final_text, show pyStrip "" = "" from rfl]⟩

/-- Claim C7 (code evidence): the wait configured by
`wait_random_exponential(min=12, max=60)` is `random.uniform(0, high)`
with `high = max(12, min(2^(n-1), 60))`, so after the first failed attempt
a draw of 1/2 waits 6 time units and a draw of 0 waits 0 — both below the
claimed 12-unit minimum (the upper bound 60 does hold for draws in
[0, 1]). -/
theorem retry_wait_below_claimed_minimum :
    retry_wait 1 (1/2) = 6 ∧ retry_wait 1 (1/2) < 12 ∧ retry_wait 1 0 = 0 := by
  norm_num [retry_wait, wait_random_exponential, wait_exponential_high]

/-- Claim C8: with the API key absent, startup halts with the
operator-visible missing-key error before the model client is ever
configured, whatever configuring would have done. -/
theorem missing_key_halts (configure : Except String Unit) :
    startup none configure = (.halted missing_key_msg, false) := rfl

/-- Claim C9: every successful `safe_generate` result is the stripped text
of some attempt's response; concretely, a response with surrounding
whitespace is displayed stripped, hence not byte-for-byte verbatim. -/
theorem safe_generate_strips :
    (∀ (gen : Nat → Except PyExc String) (r : String),
        (safe_generate gen).1 = .ok r →
        ∃ i s, 1 ≤ i ∧ i ≤ 4 ∧ gen i = .ok s ∧ r = pyStrip s) ∧
    (safe_generate (fun _ => .ok " padded  ")).1 = .ok "padded" ∧
    ("padded" : String) ≠ " padded  " := by
  refine ⟨?_, rfl, by decide⟩
  intro gen r h
  have h' := mapError_ok RetryError.mk
    (retry_loop (fun i => (gen i).map pyStrip) 3 1).1 r h
  obtain ⟨i, h1, h2, h3⟩ :=
    retry_loop_ok_source (fun i => (gen i).map pyStrip) 3 1 r h'
  cases hg : gen i with
  | ok s =>
    rw [hg] at h3
    simp only [Except.map] at h3
    exact ⟨i, s, h1, by omega, hg, by
      cases h3; rfl⟩
  | error e =>
    rw [hg] at h3
    simp [Except.map] at h3

/-- Witness for C9: the successful result " hi " is reported as coming from
an attempt whose stripped text it equals. -/
theorem safe_generate_strips_witness :
    ∃ i s, 1 ≤ i ∧ i ≤ 4 ∧
      (fun _ : Nat => (Except.ok " hi " : Except PyExc String)) i =
        .ok s ∧ "hi" = pyStrip s :=
  safe_generate_strips.1 _ "hi" rfl

/-- Claim C10: an upload text that is non-empty but strips to nothing is
treated as absent — the resolved submission text is the typed text. -/
theorem whitespace_upload_ignored (f t : String) (_hne : f ≠ "")
    (hws : pyStrip f = "") : final_text f t = t := by
  simp [final_text, hws]

/-- Witness for C10: a single-space upload with typed text "abc" resolves
to "abc". -/
theorem whitespace_upload_ignored_witness :
    final_text " " "abc" = "abc" :=
  whitespace_upload_ignored " " "abc" (by decide) (by decide)

end MedAI
